import Mathlib

/-!
Shallow embedding of `src/NeXtSRGAN/modules/nextsrgan.py`.

The file defines two model builders (`RRDB_Model`, `DiscriminatorVGG128`)
and their building blocks (`ResDenseBlock_5C`, `ResInResDenseBlock`, a
gated `BatchNormalization` wrapper) on top of TensorFlow/Keras layers.
We embed image tensors as shape fields plus a total data function over ℚ,
and embed each framework primitive the source uses (Conv2D with
same/valid padding, channel concatenation, nearest resize, global average
pooling, Dense, elementwise GELU) as an executable Lean function.  The
GELU nonlinearity itself is an external scalar function (erf-based); it is
carried as an explicit parameter `gelu : ℚ → ℚ`, and every theorem
quantifies over it.  Likewise the random kernel initializers of the source
only choose the numeric weights, so the embedding quantifies over weight
assignments instead of modelling the initializer distributions.
-/

/-- An image-like tensor `[batch, height, width, channels]`.  `data` is a
total function; indices outside the shape are junk (the source never reads
them). -/
structure Tensor where
  batch : Nat
  height : Nat
  width : Nat
  channels : Nat
  data : Nat → Nat → Nat → Nat → ℚ

theorem Tensor.ext_iff' (a b : Tensor) :
    a = b ↔ a.batch = b.batch ∧ a.height = b.height ∧ a.width = b.width ∧
      a.channels = b.channels ∧ a.data = b.data := by
  constructor
  · intro h; subst h; exact ⟨rfl, rfl, rfl, rfl, rfl⟩
  · rintro ⟨h1, h2, h3, h4, h5⟩
    cases a; cases b
    simp_all

/-- Elementwise scalar multiplication on the right, `t * c` in the source
(`x5 * self.res_beta`). -/
def Tensor.scale (t : Tensor) (c : ℚ) : Tensor :=
  { t with data := fun b i j ch => t.data b i j ch * c }

/-- Elementwise addition, `a + b` on equal-shaped tensors; the shape is
taken from the left operand. -/
def Tensor.add (a b : Tensor) : Tensor :=
  { a with data := fun bt i j ch => a.data bt i j ch + b.data bt i j ch }

/-- `tf.concat([a, b], 3)`: concatenation along the channel axis (the
source always concatenates equal-spatial-shape tensors). -/
def Tensor.concatC (a b : Tensor) : Tensor :=
  { a with
    channels := a.channels + b.channels,
    data := fun bt i j ch =>
      if ch < a.channels then a.data bt i j ch else b.data bt i j (ch - a.channels) }

/-- `tf.concat([x] ++ rest, 3)` for a nonempty list written head-first. -/
def Tensor.concat3 (x : Tensor) (rest : List Tensor) : Tensor :=
  rest.foldl Tensor.concatC x

/-- Elementwise application of a scalar function (the standalone
`tfa.layers.GELU()` layer). -/
def Tensor.mapScalar (g : ℚ → ℚ) (t : Tensor) : Tensor :=
  { t with data := fun b i j ch => g (t.data b i j ch) }

@[simp] theorem Tensor.scale_batch (t : Tensor) (c : ℚ) : (t.scale c).batch = t.batch := rfl
@[simp] theorem Tensor.scale_height (t : Tensor) (c : ℚ) : (t.scale c).height = t.height := rfl
@[simp] theorem Tensor.scale_width (t : Tensor) (c : ℚ) : (t.scale c).width = t.width := rfl
@[simp] theorem Tensor.scale_channels (t : Tensor) (c : ℚ) : (t.scale c).channels = t.channels := rfl
@[simp] theorem Tensor.scale_data (t : Tensor) (c : ℚ) :
    (t.scale c).data = fun b i j ch => t.data b i j ch * c := rfl

@[simp] theorem Tensor.add_batch (a b : Tensor) : (a.add b).batch = a.batch := rfl
@[simp] theorem Tensor.add_height (a b : Tensor) : (a.add b).height = a.height := rfl
@[simp] theorem Tensor.add_width (a b : Tensor) : (a.add b).width = a.width := rfl
@[simp] theorem Tensor.add_channels (a b : Tensor) : (a.add b).channels = a.channels := rfl
@[simp] theorem Tensor.add_data (a b : Tensor) :
    (a.add b).data = fun bt i j ch => a.data bt i j ch + b.data bt i j ch := rfl

@[simp] theorem Tensor.concatC_batch (a b : Tensor) : (a.concatC b).batch = a.batch := rfl
@[simp] theorem Tensor.concatC_height (a b : Tensor) : (a.concatC b).height = a.height := rfl
@[simp] theorem Tensor.concatC_width (a b : Tensor) : (a.concatC b).width = a.width := rfl
@[simp] theorem Tensor.concatC_channels (a b : Tensor) :
    (a.concatC b).channels = a.channels + b.channels := rfl

@[simp] theorem Tensor.concat3_batch (x : Tensor) (l : List Tensor) :
    (x.concat3 l).batch = x.batch := by
  induction l generalizing x with
  | nil => rfl
  | cons hd tl ih => simpa [Tensor.concat3, List.foldl] using ih (x.concatC hd)

@[simp] theorem Tensor.concat3_height (x : Tensor) (l : List Tensor) :
    (x.concat3 l).height = x.height := by
  induction l generalizing x with
  | nil => rfl
  | cons hd tl ih => simpa [Tensor.concat3, List.foldl] using ih (x.concatC hd)

@[simp] theorem Tensor.concat3_width (x : Tensor) (l : List Tensor) :
    (x.concat3 l).width = x.width := by
  induction l generalizing x with
  | nil => rfl
  | cons hd tl ih => simpa [Tensor.concat3, List.foldl] using ih (x.concatC hd)

/-- Keras `padding=` modes used by the source (`'same'` everywhere). -/
inductive Padding
  | same
  | valid
deriving DecidableEq

/-- Output spatial extent of a convolution: `ceil(d / s)` for same
padding, `ceil((d - k + 1) / s)` for valid padding. -/
def convOutDim : Padding → Nat → Nat → Nat → Nat
  | Padding.same, d, _, s => (d + s - 1) / s
  | Padding.valid, d, k, s => (d + s - k) / s

@[simp] theorem convOutDim_same_one (d k : Nat) : convOutDim Padding.same d k 1 = d := by
  simp [convOutDim]

@[simp] theorem convOutDim_same_two (d k : Nat) :
    convOutDim Padding.same d k 2 = (d + 1) / 2 := by
  simp [convOutDim]

/-- A `Conv2D` layer: square kernel of side `kernelSize`, equal strides,
optional bias, activation applied after the affine map (Keras
`activation=None` is embedded as `id`). -/
structure Conv2DLayer where
  filters : Nat
  kernelSize : Nat
  strides : Nat
  padding : Padding
  useBias : Bool
  kernel : Nat → Nat → Nat → Nat → ℚ
  bias : Nat → ℚ
  activation : ℚ → ℚ

/-- Read `t` at a possibly out-of-range (padded) spatial position: zero
outside the valid extent, as convolution zero-padding does. -/
def Tensor.atPad (t : Tensor) (b : Nat) (i j : Int) (ch : Nat) : ℚ :=
  if 0 ≤ i ∧ i < (t.height : Int) ∧ 0 ≤ j ∧ j < (t.width : Int) then
    t.data b i.toNat j.toNat ch
  else 0

/-- Forward pass of `Conv2D`.  For same padding the total padding is
`max((out-1)*s + k - d, 0)` with the top/left share `pad/2`, matching
TensorFlow; valid padding uses no offset. -/
def Conv2DLayer.apply (L : Conv2DLayer) (x : Tensor) : Tensor :=
  let oh := convOutDim L.padding x.height L.kernelSize L.strides
  let ow := convOutDim L.padding x.width L.kernelSize L.strides
  let padT : Nat :=
    match L.padding with
    | Padding.same => ((oh - 1) * L.strides + L.kernelSize - x.height) / 2
    | Padding.valid => 0
  let padL : Nat :=
    match L.padding with
    | Padding.same => ((ow - 1) * L.strides + L.kernelSize - x.width) / 2
    | Padding.valid => 0
  { batch := x.batch,
    height := oh,
    width := ow,
    channels := L.filters,
    data := fun b i j f =>
      L.activation
        ((if L.useBias then L.bias f else 0) +
          ∑ kh in Finset.range L.kernelSize, ∑ kw in Finset.range L.kernelSize,
            ∑ ch in Finset.range x.channels,
              L.kernel kh kw ch f *
                x.atPad b ((i * L.strides + kh : Int) - padT)
                  ((j * L.strides + kw : Int) - padL) ch) }

@[simp] theorem Conv2DLayer.apply_batch (L : Conv2DLayer) (x : Tensor) :
    (L.apply x).batch = x.batch := rfl
@[simp] theorem Conv2DLayer.apply_height (L : Conv2DLayer) (x : Tensor) :
    (L.apply x).height = convOutDim L.padding x.height L.kernelSize L.strides := rfl
@[simp] theorem Conv2DLayer.apply_width (L : Conv2DLayer) (x : Tensor) :
    (L.apply x).width = convOutDim L.padding x.width L.kernelSize L.strides := rfl
@[simp] theorem Conv2DLayer.apply_channels (L : Conv2DLayer) (x : Tensor) :
    (L.apply x).channels = L.filters := rfl

/-- `tf.keras.regularizers.l2(c)` (library): the penalty attached to a
kernel is `c` times the sum of squared weights. -/
def l2 (weightsDecay : ℚ) : List ℚ → ℚ :=
  fun ws => weightsDecay * (ws.map (fun w => w * w)).sum

/-- `_regularizer(weights_decay=5e-4)` from the source: an L2 weight-decay
penalty with the given coefficient. -/
def _regularizer (weightsDecay : ℚ) : List ℚ → ℚ :=
  l2 weightsDecay

/-- Modelled from the spec: the framework's base `BatchNormalization.call`
(library code, not in the repository).  The spec describes it as a
per-channel normalization with learned scale and shift whose behaviour
depends only on the mode flag (training statistics vs stored running
statistics), so it is embedded as a per-mode, per-channel scalar
transform applied elementwise. -/
structure BNBase where
  transform : Bool → Nat → ℚ → ℚ

/-- Forward pass of the base batch-normalization layer in mode
`training`. -/
def BNBase.call (L : BNBase) (x : Tensor) (training : Bool) : Tensor :=
  { x with data := fun b i j ch => L.transform training ch (x.data b i j ch) }

@[simp] theorem BNBase.bnbase_call_batch (L : BNBase) (x : Tensor) (t : Bool) :
    (L.call x t).batch = x.batch := rfl
@[simp] theorem BNBase.bnbase_call_height (L : BNBase) (x : Tensor) (t : Bool) :
    (L.call x t).height = x.height := rfl
@[simp] theorem BNBase.bnbase_call_width (L : BNBase) (x : Tensor) (t : Bool) :
    (L.call x t).width = x.width := rfl
@[simp] theorem BNBase.bnbase_call_channels (L : BNBase) (x : Tensor) (t : Bool) :
    (L.call x t).channels = x.channels := rfl

/-- The custom `BatchNormalization` subclass of the source: the inherited
transform (`base`) plus the layer's `trainable` flag. -/
structure BatchNormalization where
  base : BNBase
  trainable : Bool

/-- `BatchNormalization.call(self, x, training=False)` from the source:
a `None` flag becomes `False`, then the flag is ANDed with
`self.trainable` before delegating to the superclass. -/
def BatchNormalization.call (bn : BatchNormalization) (x : Tensor)
    (training : Option Bool) : Tensor :=
  let training' := training.getD false
  bn.base.call x (training' && bn.trainable)

/-- Realized numeric weights of one convolution (the source draws them
from `_kernel_init`; theorems quantify over them). -/
structure ConvWeights where
  kernel : Nat → Nat → Nat → Nat → ℚ
  bias : Nat → ℚ

/-- Realized weights of the five convolutions of one `ResDenseBlock_5C`. -/
structure RDBWeights where
  w1 : ConvWeights
  w2 : ConvWeights
  w3 : ConvWeights
  w4 : ConvWeights
  w5 : ConvWeights

/-- Realized weights of the three dense blocks of one
`ResInResDenseBlock`. -/
structure RRDBWeights where
  r1 : RDBWeights
  r2 : RDBWeights
  r3 : RDBWeights

/-- `_Conv2DLayer = functools.partial(Conv2D, kernel_size=3,
padding='same', ...)` inside `ResDenseBlock_5C.__init__`: a 3×3,
stride-1, same-padding, biased convolution with the given filter count
and GELU activation. -/
def RDBConv (filters : Nat) (gelu : ℚ → ℚ) (w : ConvWeights) : Conv2DLayer :=
  { filters := filters, kernelSize := 3, strides := 1, padding := Padding.same,
    useBias := true, kernel := w.kernel, bias := w.bias, activation := gelu }

/-- `ResDenseBlock_5C`: residual scaling factor plus five convolutions. -/
structure ResDenseBlock_5C where
  res_beta : ℚ
  conv1 : Conv2DLayer
  conv2 : Conv2DLayer
  conv3 : Conv2DLayer
  conv4 : Conv2DLayer
  conv5 : Conv2DLayer

/-- `ResDenseBlock_5C.__init__(nf, gc, res_beta, wd)`: builds the five
GELU convolutions with filter counts `gc, gc, gc, gc, nf` (`wd` only
parameterizes the attached regularizer, which does not enter the forward
pass). -/
def ResDenseBlock_5C.build (nf gc : Nat) (res_beta : ℚ) (gelu : ℚ → ℚ)
    (w : RDBWeights) : ResDenseBlock_5C :=
  { res_beta := res_beta,
    conv1 := RDBConv gc gelu w.w1,
    conv2 := RDBConv gc gelu w.w2,
    conv3 := RDBConv gc gelu w.w3,
    conv4 := RDBConv gc gelu w.w4,
    conv5 := RDBConv nf gelu w.w5 }

/-- `ResDenseBlock_5C.call`: dense connectivity over channel-axis
concatenations, then `x5 * self.res_beta + x`. -/
def ResDenseBlock_5C.call (m : ResDenseBlock_5C) (x : Tensor) : Tensor :=
  let x1 := m.conv1.apply x
  let x2 := m.conv2.apply (x.concat3 [x1])
  let x3 := m.conv3.apply (x.concat3 [x1, x2])
  let x4 := m.conv4.apply (x.concat3 [x1, x2, x3])
  let x5 := m.conv5.apply (x.concat3 [x1, x2, x3, x4])
  (x5.scale m.res_beta).add x

/-- `ResInResDenseBlock`: residual scaling factor plus three dense
blocks. -/
structure ResInResDenseBlock where
  res_beta : ℚ
  rdb_1 : ResDenseBlock_5C
  rdb_2 : ResDenseBlock_5C
  rdb_3 : ResDenseBlock_5C

/-- `ResInResDenseBlock.__init__(nf, gc, res_beta, wd)`: three
`ResDenseBlock_5C(nf, gc, res_beta, wd)` instances. -/
def ResInResDenseBlock.build (nf gc : Nat) (res_beta : ℚ) (gelu : ℚ → ℚ)
    (w : RRDBWeights) : ResInResDenseBlock :=
  { res_beta := res_beta,
    rdb_1 := ResDenseBlock_5C.build nf gc res_beta gelu w.r1,
    rdb_2 := ResDenseBlock_5C.build nf gc res_beta gelu w.r2,
    rdb_3 := ResDenseBlock_5C.build nf gc res_beta gelu w.r3 }

/-- `ResInResDenseBlock.call`: the three dense blocks in sequence, then
`out * self.res_beta + x`. -/
def ResInResDenseBlock.call (m : ResInResDenseBlock) (x : Tensor) : Tensor :=
  let out := m.rdb_1.call x
  let out := m.rdb_2.call out
  let out := m.rdb_3.call out
  (out.scale m.res_beta).add x

/-- `tf.image.resize(t, [h, w], method='nearest')` (library): the output
pixel `(i, j)` replicates the source pixel at the proportionally scaled
index. -/
def Tensor.resizeNearest (t : Tensor) (h w : Nat) : Tensor :=
  { t with
    height := h,
    width := w,
    data := fun b i j ch => t.data b (i * t.height / h) (j * t.width / w) ch }

@[simp] theorem Tensor.resizeNearest_batch (t : Tensor) (h w : Nat) :
    (t.resizeNearest h w).batch = t.batch := rfl
@[simp] theorem Tensor.resizeNearest_height (t : Tensor) (h w : Nat) :
    (t.resizeNearest h w).height = h := rfl
@[simp] theorem Tensor.resizeNearest_width (t : Tensor) (h w : Nat) :
    (t.resizeNearest h w).width = w := rfl
@[simp] theorem Tensor.resizeNearest_channels (t : Tensor) (h w : Nat) :
    (t.resizeNearest h w).channels = t.channels := rfl

/-- `conv_f = functools.partial(Conv2D, kernel_size=3, padding='same', ...)`
inside `RRDB_Model`: a 3×3, stride-1, same-padding, biased convolution
with the given filter count and activation (`id` when the source passes
no activation). -/
def GenConv (filters : Nat) (act : ℚ → ℚ) (w : ConvWeights) : Conv2DLayer :=
  { filters := filters, kernelSize := 3, strides := 1, padding := Padding.same,
    useBias := true, kernel := w.kernel, bias := w.bias, activation := act }

/-- Realized weights of the whole generator: one `RRDBWeights` per trunk
block plus the six standalone convolutions. -/
structure GenWeights where
  rrdb : Nat → RRDBWeights
  conv_first : ConvWeights
  conv_trunk : ConvWeights
  upconv_1 : ConvWeights
  upconv_2 : ConvWeights
  conv_hr : ConvWeights
  conv_last : ConvWeights

/-- `tf.keras.Sequential([rrdb_f(name='RRDB_i') for i in range(nb)])`:
the trunk applies the `nb` RRDB blocks in index order.  Each block is
`ResInResDenseBlock(nf=nf, gc=gc, wd=wd)` with the default
`res_beta=0.2`. -/
def RRDB_trunk (nf gc : Nat) (gelu : ℚ → ℚ) (w : Nat → RRDBWeights)
    (nb : Nat) (x : Tensor) : Tensor :=
  (List.range nb).foldl
    (fun t i => (ResInResDenseBlock.build nf gc (1 / 5) gelu (w i)).call t) x

/-- The generator's forward graph, after the `cfg_net` lookups have
produced `nf` and `nb`.  Follows the body of `RRDB_Model` line by line;
`size_fea_h`/`size_fea_w` fall back to the dynamic feature shape when
`size is None`. -/
def RRDB_Model_graph (size : Option Nat) (channels nf nb gc : Nat)
    (gelu : ℚ → ℚ) (w : GenWeights) (x : Tensor) : Tensor :=
  let fea := (GenConv nf id w.conv_first).apply x
  let fea_rrdb := RRDB_trunk nf gc gelu w.rrdb nb fea
  let trunck := (GenConv nf id w.conv_trunk).apply fea_rrdb
  let fea := fea.add trunck
  let size_fea_h := match size with | none => fea.height | some s => s
  let size_fea_w := match size with | none => fea.width | some s => s
  let fea_resize := fea.resizeNearest (size_fea_h * 2) (size_fea_w * 2)
  let fea := (GenConv nf gelu w.upconv_1).apply fea_resize
  let fea_resize := fea.resizeNearest (size_fea_h * 4) (size_fea_w * 4)
  let fea := (GenConv nf gelu w.upconv_2).apply fea_resize
  let fea := (GenConv nf gelu w.conv_hr).apply fea
  (GenConv channels id w.conv_last).apply fea

/-- `RRDB_Model(size, channels, cfg_net, gc, wd)`: the first statement
`nf, nb = cfg_net['nf'], cfg_net['nb']` raises `KeyError` on a missing
key before any layer is built; otherwise the model graph is assembled.
`cfg_net` is embedded as an association list and `KeyError` as the
`Except.error` branch carrying the missing key. -/
def RRDB_Model (size : Option Nat) (channels : Nat)
    (cfg_net : List (String × Nat)) (gc : Nat) (gelu : ℚ → ℚ)
    (w : GenWeights) : Except String (Tensor → Tensor) :=
  match cfg_net.lookup "nf" with
  | none => Except.error "KeyError: nf"
  | some nf =>
    match cfg_net.lookup "nb" with
    | none => Except.error "KeyError: nb"
    | some nb => Except.ok (RRDB_Model_graph size channels nf nb gc gelu w)

/-- A rank-2 tensor `[batch, features]`, as produced by global average
pooling and consumed by `Dense`. -/
structure Tensor2 where
  batch : Nat
  features : Nat
  data : Nat → Nat → ℚ

/-- `tf.keras.layers.GlobalAveragePooling2D()` (library): per-channel
mean over the spatial extent. -/
def globalAveragePooling2D (x : Tensor) : Tensor2 :=
  { batch := x.batch,
    features := x.channels,
    data := fun b ch =>
      (∑ i in Finset.range x.height, ∑ j in Finset.range x.width, x.data b i j ch) /
        (x.height * x.width) }

/-- Realized numeric weights of a `Dense` layer. -/
structure DenseWeights where
  kernel : Nat → Nat → ℚ
  bias : Nat → ℚ

/-- A Keras `Dense` layer (library): affine map on the feature axis. -/
structure DenseLayer where
  units : Nat
  kernel : Nat → Nat → ℚ
  bias : Nat → ℚ

/-- Forward pass of `Dense`. -/
def DenseLayer.apply (L : DenseLayer) (x : Tensor2) : Tensor2 :=
  { batch := x.batch,
    features := L.units,
    data := fun b u =>
      L.bias u + ∑ ch in Finset.range x.features, x.data b ch * L.kernel ch u }

/-- `conv_k3s1_f = functools.partial(Conv2D, kernel_size=3, strides=1,
padding='same', ...)` inside `DiscriminatorVGG128`; no activation is ever
passed, and `use_bias` is explicit per layer (Keras default `True`). -/
def conv_k3s1 (filters : Nat) (useBias : Bool) (w : ConvWeights) : Conv2DLayer :=
  { filters := filters, kernelSize := 3, strides := 1, padding := Padding.same,
    useBias := useBias, kernel := w.kernel, bias := w.bias, activation := id }

/-- `conv_k4s2_f = functools.partial(Conv2D, kernel_size=4, strides=2,
padding='same', ...)` inside `DiscriminatorVGG128`. -/
def conv_k4s2 (filters : Nat) (useBias : Bool) (w : ConvWeights) : Conv2DLayer :=
  { filters := filters, kernelSize := 4, strides := 2, padding := Padding.same,
    useBias := useBias, kernel := w.kernel, bias := w.bias, activation := id }

/-- Realized weights of the whole discriminator. -/
structure DiscWeights where
  conv0_0 : ConvWeights
  conv0_1 : ConvWeights
  conv1_0 : ConvWeights
  conv1_1 : ConvWeights
  conv2_0 : ConvWeights
  conv2_1 : ConvWeights
  conv3_0 : ConvWeights
  conv3_1 : ConvWeights
  conv4_0 : ConvWeights
  conv4_1 : ConvWeights
  bn0_1 : BNBase
  bn1_1 : BNBase
  bn2_1 : BNBase
  bn3_1 : BNBase
  bn4_1 : BNBase
  linear1 : DenseWeights

/-- The discriminator's batch-normalization layers: fresh
`BatchNormalization(...)` instances, whose `trainable` flag defaults to
`True` at construction. -/
def discBN (b : BNBase) : BatchNormalization :=
  { base := b, trainable := true }

/-- `conv0_0`: 3×3 stride-1 conv, `nf` filters, with bias. -/
def disc_conv0_0 (nf : Nat) (w : ConvWeights) : Conv2DLayer := conv_k3s1 nf true w
/-- `conv0_1`: 4×4 stride-2 conv, `nf` filters, `use_bias=False`. -/
def disc_conv0_1 (nf : Nat) (w : ConvWeights) : Conv2DLayer := conv_k4s2 nf false w
/-- `conv1_0`: 3×3 stride-1 conv, `nf*2` filters, `use_bias=False`. -/
def disc_conv1_0 (nf : Nat) (w : ConvWeights) : Conv2DLayer := conv_k3s1 (nf * 2) false w
/-- `conv1_1`: 4×4 stride-2 conv, `nf*2` filters, `use_bias=False`. -/
def disc_conv1_1 (nf : Nat) (w : ConvWeights) : Conv2DLayer := conv_k4s2 (nf * 2) false w
/-- `conv2_0`: 3×3 stride-1 conv, `nf*4` filters, `use_bias=False`. -/
def disc_conv2_0 (nf : Nat) (w : ConvWeights) : Conv2DLayer := conv_k3s1 (nf * 4) false w
/-- `conv2_1`: 4×4 stride-2 conv, `nf*4` filters, `use_bias=False`. -/
def disc_conv2_1 (nf : Nat) (w : ConvWeights) : Conv2DLayer := conv_k4s2 (nf * 4) false w
/-- `conv3_0`: 3×3 stride-1 conv, `nf*8` filters, `use_bias=False`. -/
def disc_conv3_0 (nf : Nat) (w : ConvWeights) : Conv2DLayer := conv_k3s1 (nf * 8) false w
/-- `conv3_1`: 4×4 stride-2 conv, `nf*8` filters, `use_bias=False`. -/
def disc_conv3_1 (nf : Nat) (w : ConvWeights) : Conv2DLayer := conv_k4s2 (nf * 8) false w
/-- `conv4_0`: 3×3 stride-1 conv, `nf*8` filters, `use_bias=False`. -/
def disc_conv4_0 (nf : Nat) (w : ConvWeights) : Conv2DLayer := conv_k3s1 (nf * 8) false w
/-- `conv4_1`: 4×4 stride-2 conv, `nf*8` filters, `use_bias=False`. -/
def disc_conv4_1 (nf : Nat) (w : ConvWeights) : Conv2DLayer := conv_k4s2 (nf * 8) false w
/-- `linear1`: single dense output unit. -/
def disc_linear1 (w : DenseWeights) : DenseLayer :=
  { units := 1, kernel := w.kernel, bias := w.bias }

/-- `DiscriminatorVGG128(size, channels, nf, wd)`: the layer stack of the
source, line by line.  `training` is the flag the framework threads into
each `BatchNormalization.call` when the built model is invoked; `size`
and `channels` only parameterize the `Input` declaration. -/
def DiscriminatorVGG128 (size channels nf : Nat) (gelu : ℚ → ℚ)
    (w : DiscWeights) (x : Tensor) (training : Option Bool) : Tensor2 :=
  let x := (disc_conv0_0 nf w.conv0_0).apply x
  let x := (disc_conv0_1 nf w.conv0_1).apply x
  let x := (discBN w.bn0_1).call x training
  let x := (disc_conv1_0 nf w.conv1_0).apply x
  let x := x.mapScalar gelu
  let x := (disc_conv1_1 nf w.conv1_1).apply x
  let x := (discBN w.bn1_1).call x training
  let x := (disc_conv2_0 nf w.conv2_0).apply x
  let x := x.mapScalar gelu
  let x := (disc_conv2_1 nf w.conv2_1).apply x
  let x := (discBN w.bn2_1).call x training
  let x := (disc_conv3_0 nf w.conv3_0).apply x
  let x := x.mapScalar gelu
  let x := (disc_conv3_1 nf w.conv3_1).apply x
  let x := (discBN w.bn3_1).call x training
  let x := (disc_conv4_0 nf w.conv4_0).apply x
  let x := x.mapScalar gelu
  let x := (disc_conv4_1 nf w.conv4_1).apply x
  let x := (discBN w.bn4_1).call x training
  let x := globalAveragePooling2D x
  (disc_linear1 w.linear1).apply x

/-- All-zero convolution weights (used to instantiate theorems on
concrete models). -/
def cwZero : ConvWeights :=
  { kernel := fun _ _ _ _ => 0, bias := fun _ => 0 }

/-- All-zero weights for one dense block. -/
def rdbwZero : RDBWeights :=
  { w1 := cwZero, w2 := cwZero, w3 := cwZero, w4 := cwZero, w5 := cwZero }

/-- All-zero weights for one RRDB block. -/
def rrdbwZero : RRDBWeights :=
  { r1 := rdbwZero, r2 := rdbwZero, r3 := rdbwZero }

/-- All-zero generator weights. -/
def gwZero : GenWeights :=
  { rrdb := fun _ => rrdbwZero, conv_first := cwZero, conv_trunk := cwZero,
    upconv_1 := cwZero, upconv_2 := cwZero, conv_hr := cwZero, conv_last := cwZero }

/-- An identity base batch-normalization transform. -/
def bnbId : BNBase :=
  { transform := fun _ _ v => v }

/-- All-zero discriminator weights with identity batch-normalization
transforms. -/
def dwZero : DiscWeights :=
  { conv0_0 := cwZero, conv0_1 := cwZero, conv1_0 := cwZero, conv1_1 := cwZero,
    conv2_0 := cwZero, conv2_1 := cwZero, conv3_0 := cwZero, conv3_1 := cwZero,
    conv4_0 := cwZero, conv4_1 := cwZero,
    bn0_1 := bnbId, bn1_1 := bnbId, bn2_1 := bnbId, bn3_1 := bnbId, bn4_1 := bnbId,
    linear1 := { kernel := fun _ _ => 0, bias := fun _ => 0 } }

/-- A concrete all-zero `1 × 2 × 2 × 3` input tensor. -/
def tSmall : Tensor :=
  { batch := 1, height := 2, width := 2, channels := 3, data := fun _ _ _ _ => 0 }

/-- A concrete all-zero `1 × 32 × 32 × 3` low-resolution input. -/
def tGen : Tensor :=
  { batch := 1, height := 32, width := 32, channels := 3, data := fun _ _ _ _ => 0 }

/-- A concrete all-zero `1 × 128 × 128 × 3` discriminator input. -/
def tDisc : Tensor :=
  { batch := 1, height := 128, width := 128, channels := 3, data := fun _ _ _ _ => 0 }

/-! Shape lemmas for the residual blocks and the generator trunk.  The
projection lemmas are definitional: the `data` fields are never
normalized. -/

@[simp] theorem RDBConv_filters (f : Nat) (g : ℚ → ℚ) (w : ConvWeights) :
    (RDBConv f g w).filters = f := rfl
@[simp] theorem RDBConv_kernelSize (f : Nat) (g : ℚ → ℚ) (w : ConvWeights) :
    (RDBConv f g w).kernelSize = 3 := rfl
@[simp] theorem RDBConv_strides (f : Nat) (g : ℚ → ℚ) (w : ConvWeights) :
    (RDBConv f g w).strides = 1 := rfl
@[simp] theorem RDBConv_padding (f : Nat) (g : ℚ → ℚ) (w : ConvWeights) :
    (RDBConv f g w).padding = Padding.same := rfl

@[simp] theorem ResDenseBlock_5C.rdb_call_batch (m : ResDenseBlock_5C) (x : Tensor) :
    (m.call x).batch = x.batch := rfl
@[simp] theorem ResDenseBlock_5C.rdb_call_height (m : ResDenseBlock_5C) (x : Tensor) :
    (m.call x).height =
      convOutDim m.conv5.padding x.height m.conv5.kernelSize m.conv5.strides := rfl
@[simp] theorem ResDenseBlock_5C.rdb_call_width (m : ResDenseBlock_5C) (x : Tensor) :
    (m.call x).width =
      convOutDim m.conv5.padding x.width m.conv5.kernelSize m.conv5.strides := rfl
@[simp] theorem ResDenseBlock_5C.rdb_call_channels (m : ResDenseBlock_5C) (x : Tensor) :
    (m.call x).channels = m.conv5.filters := rfl

@[simp] theorem ResDenseBlock_5C.build_conv1 (nf gc : Nat) (b : ℚ) (g : ℚ → ℚ)
    (w : RDBWeights) : (ResDenseBlock_5C.build nf gc b g w).conv1 = RDBConv gc g w.w1 := rfl
@[simp] theorem ResDenseBlock_5C.build_conv2 (nf gc : Nat) (b : ℚ) (g : ℚ → ℚ)
    (w : RDBWeights) : (ResDenseBlock_5C.build nf gc b g w).conv2 = RDBConv gc g w.w2 := rfl
@[simp] theorem ResDenseBlock_5C.build_conv3 (nf gc : Nat) (b : ℚ) (g : ℚ → ℚ)
    (w : RDBWeights) : (ResDenseBlock_5C.build nf gc b g w).conv3 = RDBConv gc g w.w3 := rfl
@[simp] theorem ResDenseBlock_5C.build_conv4 (nf gc : Nat) (b : ℚ) (g : ℚ → ℚ)
    (w : RDBWeights) : (ResDenseBlock_5C.build nf gc b g w).conv4 = RDBConv gc g w.w4 := rfl
@[simp] theorem ResDenseBlock_5C.build_conv5 (nf gc : Nat) (b : ℚ) (g : ℚ → ℚ)
    (w : RDBWeights) : (ResDenseBlock_5C.build nf gc b g w).conv5 = RDBConv nf g w.w5 := rfl
@[simp] theorem ResDenseBlock_5C.rdb_build_res_beta (nf gc : Nat) (b : ℚ) (g : ℚ → ℚ)
    (w : RDBWeights) : (ResDenseBlock_5C.build nf gc b g w).res_beta = b := rfl

theorem ResDenseBlock_5C.rdb_build_call_shape (nf gc : Nat) (res_beta : ℚ)
    (gelu : ℚ → ℚ) (w : RDBWeights) (x : Tensor) :
    ((ResDenseBlock_5C.build nf gc res_beta gelu w).call x).batch = x.batch ∧
    ((ResDenseBlock_5C.build nf gc res_beta gelu w).call x).height = x.height ∧
    ((ResDenseBlock_5C.build nf gc res_beta gelu w).call x).width = x.width ∧
    ((ResDenseBlock_5C.build nf gc res_beta gelu w).call x).channels = nf := by
  refine ⟨rfl, ?_, ?_, rfl⟩ <;> simp

@[simp] theorem ResInResDenseBlock.build_rdb_1 (nf gc : Nat) (b : ℚ) (g : ℚ → ℚ)
    (w : RRDBWeights) :
    (ResInResDenseBlock.build nf gc b g w).rdb_1 = ResDenseBlock_5C.build nf gc b g w.r1 := rfl
@[simp] theorem ResInResDenseBlock.build_rdb_2 (nf gc : Nat) (b : ℚ) (g : ℚ → ℚ)
    (w : RRDBWeights) :
    (ResInResDenseBlock.build nf gc b g w).rdb_2 = ResDenseBlock_5C.build nf gc b g w.r2 := rfl
@[simp] theorem ResInResDenseBlock.build_rdb_3 (nf gc : Nat) (b : ℚ) (g : ℚ → ℚ)
    (w : RRDBWeights) :
    (ResInResDenseBlock.build nf gc b g w).rdb_3 = ResDenseBlock_5C.build nf gc b g w.r3 := rfl
@[simp] theorem ResInResDenseBlock.rrdb_build_res_beta (nf gc : Nat) (b : ℚ) (g : ℚ → ℚ)
    (w : RRDBWeights) : (ResInResDenseBlock.build nf gc b g w).res_beta = b := rfl

@[simp] theorem ResInResDenseBlock.rrdb_call_batch (m : ResInResDenseBlock) (x : Tensor) :
    (m.call x).batch = x.batch := by
  unfold ResInResDenseBlock.call
  simp only [Tensor.add_batch, Tensor.scale_batch, ResDenseBlock_5C.rdb_call_batch]

@[simp] theorem ResInResDenseBlock.rrdb_call_height (m : ResInResDenseBlock) (x : Tensor) :
    (m.call x).height = (m.rdb_3.call (m.rdb_2.call (m.rdb_1.call x))).height := by
  unfold ResInResDenseBlock.call
  simp only [Tensor.add_height, Tensor.scale_height]

@[simp] theorem ResInResDenseBlock.rrdb_call_width (m : ResInResDenseBlock) (x : Tensor) :
    (m.call x).width = (m.rdb_3.call (m.rdb_2.call (m.rdb_1.call x))).width := by
  unfold ResInResDenseBlock.call
  simp only [Tensor.add_width, Tensor.scale_width]

@[simp] theorem ResInResDenseBlock.rrdb_call_channels (m : ResInResDenseBlock) (x : Tensor) :
    (m.call x).channels = m.rdb_3.conv5.filters := by
  unfold ResInResDenseBlock.call
  simp only [Tensor.add_channels, Tensor.scale_channels, ResDenseBlock_5C.rdb_call_channels]

theorem ResInResDenseBlock.rrdb_build_call_shape (nf gc : Nat) (res_beta : ℚ)
    (gelu : ℚ → ℚ) (w : RRDBWeights) (x : Tensor) :
    ((ResInResDenseBlock.build nf gc res_beta gelu w).call x).batch = x.batch ∧
    ((ResInResDenseBlock.build nf gc res_beta gelu w).call x).height = x.height ∧
    ((ResInResDenseBlock.build nf gc res_beta gelu w).call x).width = x.width ∧
    ((ResInResDenseBlock.build nf gc res_beta gelu w).call x).channels = nf := by
  refine ⟨?_, ?_, ?_, ?_⟩ <;> simp

@[simp] theorem Tensor.mapScalar_batch (g : ℚ → ℚ) (t : Tensor) :
    (t.mapScalar g).batch = t.batch := rfl
@[simp] theorem Tensor.mapScalar_height (g : ℚ → ℚ) (t : Tensor) :
    (t.mapScalar g).height = t.height := rfl
@[simp] theorem Tensor.mapScalar_width (g : ℚ → ℚ) (t : Tensor) :
    (t.mapScalar g).width = t.width := rfl
@[simp] theorem Tensor.mapScalar_channels (g : ℚ → ℚ) (t : Tensor) :
    (t.mapScalar g).channels = t.channels := rfl

/-- The intermediate `x1` of `ResDenseBlock_5C.call`. -/
def ResDenseBlock_5C.x1 (m : ResDenseBlock_5C) (x : Tensor) : Tensor :=
  m.conv1.apply x
/-- The intermediate `x2` of `ResDenseBlock_5C.call`. -/
def ResDenseBlock_5C.x2 (m : ResDenseBlock_5C) (x : Tensor) : Tensor :=
  m.conv2.apply (x.concat3 [m.x1 x])
/-- The intermediate `x3` of `ResDenseBlock_5C.call`. -/
def ResDenseBlock_5C.x3 (m : ResDenseBlock_5C) (x : Tensor) : Tensor :=
  m.conv3.apply (x.concat3 [m.x1 x, m.x2 x])
/-- The intermediate `x4` of `ResDenseBlock_5C.call`. -/
def ResDenseBlock_5C.x4 (m : ResDenseBlock_5C) (x : Tensor) : Tensor :=
  m.conv4.apply (x.concat3 [m.x1 x, m.x2 x, m.x3 x])
/-- The intermediate `x5` of `ResDenseBlock_5C.call`. -/
def ResDenseBlock_5C.x5 (m : ResDenseBlock_5C) (x : Tensor) : Tensor :=
  m.conv5.apply (x.concat3 [m.x1 x, m.x2 x, m.x3 x, m.x4 x])

theorem ResDenseBlock_5C.rdb_call_def (m : ResDenseBlock_5C) (x : Tensor) :
    m.call x = ((m.x5 x).scale m.res_beta).add x := rfl

/-- The composite `rdb_3(rdb_2(rdb_1(x)))` of `ResInResDenseBlock.call`. -/
def ResInResDenseBlock.body (m : ResInResDenseBlock) (x : Tensor) : Tensor :=
  m.rdb_3.call (m.rdb_2.call (m.rdb_1.call x))

theorem ResInResDenseBlock.rrdb_call_def (m : ResInResDenseBlock) (x : Tensor) :
    m.call x = ((m.body x).scale m.res_beta).add x := rfl

/-- Scaling any same-shaped tensor by zero and adding `x` gives back `x`. -/
theorem Tensor.scale_zero_add (a x : Tensor) (hb : a.batch = x.batch)
    (hh : a.height = x.height) (hw : a.width = x.width)
    (hc : a.channels = x.channels) : (a.scale 0).add x = x := by
  rw [Tensor.ext_iff']
  refine ⟨hb, hh, hw, hc, ?_⟩
  funext b i j ch
  simp

theorem RRDB_trunk_shape (nf gc : Nat) (gelu : ℚ → ℚ) (w : Nat → RRDBWeights)
    (nb : Nat) (x : Tensor) (hx : x.channels = nf) :
    (RRDB_trunk nf gc gelu w nb x).batch = x.batch ∧
    (RRDB_trunk nf gc gelu w nb x).height = x.height ∧
    (RRDB_trunk nf gc gelu w nb x).width = x.width ∧
    (RRDB_trunk nf gc gelu w nb x).channels = nf := by
  unfold RRDB_trunk
  generalize List.range nb = l
  induction l generalizing x with
  | nil => exact ⟨rfl, rfl, rfl, hx⟩
  | cons hd tl ih =>
    rw [List.foldl_cons]
    obtain ⟨h1, h2, h3, h4⟩ :=
      ih ((ResInResDenseBlock.build nf gc (1 / 5) gelu (w hd)).call x)
        (ResInResDenseBlock.rrdb_build_call_shape nf gc (1 / 5) gelu (w hd) x).2.2.2
    obtain ⟨g1, g2, g3, _⟩ :=
      ResInResDenseBlock.rrdb_build_call_shape nf gc (1 / 5) gelu (w hd) x
    exact ⟨h1.trans g1, h2.trans g2, h3.trans g3, h4⟩

@[simp] theorem GenConv_strides (f : Nat) (a : ℚ → ℚ) (w : ConvWeights) :
    (GenConv f a w).strides = 1 := rfl
@[simp] theorem GenConv_kernelSize (f : Nat) (a : ℚ → ℚ) (w : ConvWeights) :
    (GenConv f a w).kernelSize = 3 := rfl
@[simp] theorem GenConv_padding (f : Nat) (a : ℚ → ℚ) (w : ConvWeights) :
    (GenConv f a w).padding = Padding.same := rfl
@[simp] theorem GenConv_filters (f : Nat) (a : ℚ → ℚ) (w : ConvWeights) :
    (GenConv f a w).filters = f := rfl

theorem RRDB_Model_graph_shape (s channels nf nb gc : Nat) (gelu : ℚ → ℚ)
    (w : GenWeights) (x : Tensor) :
    (RRDB_Model_graph (some s) channels nf nb gc gelu w x).batch = x.batch ∧
    (RRDB_Model_graph (some s) channels nf nb gc gelu w x).height = s * 4 ∧
    (RRDB_Model_graph (some s) channels nf nb gc gelu w x).width = s * 4 ∧
    (RRDB_Model_graph (some s) channels nf nb gc gelu w x).channels = channels := by
  unfold RRDB_Model_graph
  refine ⟨?_, ?_, ?_, ?_⟩ <;> simp

/-- Stage 0 of the discriminator as the spec describes it: 3×3 conv →
4×4 stride-2 conv → batch norm, with no activation anywhere in the
stage. -/
def discStage0 (nf : Nat) (w : DiscWeights) (training : Option Bool)
    (x : Tensor) : Tensor :=
  (discBN w.bn0_1).call
    ((disc_conv0_1 nf w.conv0_1).apply ((disc_conv0_0 nf w.conv0_0).apply x))
    training

/-- One of stages 1–4 as the spec describes it: 3×3 conv → GELU →
4×4 stride-2 conv → batch norm. -/
def discStage (c0 c1 : Conv2DLayer) (bn : BNBase) (gelu : ℚ → ℚ)
    (training : Option Bool) (x : Tensor) : Tensor :=
  (discBN bn).call (c1.apply ((c0.apply x).mapScalar gelu)) training

@[simp] theorem BatchNormalization.bn_call_batch (bn : BatchNormalization)
    (x : Tensor) (t : Option Bool) : (bn.call x t).batch = x.batch := rfl
@[simp] theorem BatchNormalization.bn_call_height (bn : BatchNormalization)
    (x : Tensor) (t : Option Bool) : (bn.call x t).height = x.height := rfl
@[simp] theorem BatchNormalization.bn_call_width (bn : BatchNormalization)
    (x : Tensor) (t : Option Bool) : (bn.call x t).width = x.width := rfl
@[simp] theorem BatchNormalization.bn_call_channels (bn : BatchNormalization)
    (x : Tensor) (t : Option Bool) : (bn.call x t).channels = x.channels := rfl

@[simp] theorem globalAveragePooling2D_batch (x : Tensor) :
    (globalAveragePooling2D x).batch = x.batch := rfl
@[simp] theorem globalAveragePooling2D_features (x : Tensor) :
    (globalAveragePooling2D x).features = x.channels := rfl
@[simp] theorem DenseLayer.dense_apply_batch (L : DenseLayer) (x : Tensor2) :
    (L.apply x).batch = x.batch := rfl
@[simp] theorem DenseLayer.apply_features (L : DenseLayer) (x : Tensor2) :
    (L.apply x).features = L.units := rfl

theorem DiscriminatorVGG128_shape (size channels nf : Nat) (gelu : ℚ → ℚ)
    (w : DiscWeights) (x : Tensor) (training : Option Bool) :
    (DiscriminatorVGG128 size channels nf gelu w x training).batch = x.batch ∧
    (DiscriminatorVGG128 size channels nf gelu w x training).features = 1 := by
  unfold DiscriminatorVGG128
  constructor <;>
    simp [disc_conv0_0, disc_conv0_1, disc_conv1_0, disc_conv1_1, disc_conv2_0,
      disc_conv2_1, disc_conv3_0, disc_conv3_1, disc_conv4_0, disc_conv4_1,
      conv_k3s1, conv_k4s2, disc_linear1]

/-! The claims. -/

/-- A 3×3, stride-1, same-padding convolution with the given activation
and output channel count. -/
def conv3x3SameAct (L : Conv2DLayer) (act : ℚ → ℚ) (f : Nat) : Prop :=
  L.kernelSize = 3 ∧ L.strides = 1 ∧ L.padding = Padding.same ∧
  L.activation = act ∧ L.filters = f

/-- A same-padding convolution with the given kernel size, stride, bias
flag and output channel count, and no activation of its own. -/
def convNoAct (L : Conv2DLayer) (k s : Nat) (b : Bool) (f : Nat) : Prop :=
  L.kernelSize = k ∧ L.strides = s ∧ L.padding = Padding.same ∧
  L.useBias = b ∧ L.activation = id ∧ L.filters = f

/-- C1: for every valid combination of `size`, `channels` and `cfg_net`
(supplying `nf` and `nb`), the model built by `RRDB_Model` maps an input
of shape `[batch, size, size, channels]` to an output whose spatial
dimensions are exactly 4× the input spatial dimensions and whose channel
count equals the input channel count. -/
theorem claim_C1 (s channels : Nat) (cfg_net : List (String × Nat)) (gc : Nat)
    (gelu : ℚ → ℚ) (w : GenWeights) (nf nb : Nat) (f : Tensor → Tensor)
    (x : Tensor) (hnf : cfg_net.lookup "nf" = some nf)
    (hnb : cfg_net.lookup "nb" = some nb)
    (hf : RRDB_Model (some s) channels cfg_net gc gelu w = Except.ok f)
    (hh : x.height = s) (hw : x.width = s) (hc : x.channels = channels) :
    (f x).batch = x.batch ∧ (f x).height = 4 * s ∧ (f x).width = 4 * s ∧
    (f x).channels = channels := by
  have hf' : RRDB_Model_graph (some s) channels nf nb gc gelu w = f := by
    simpa [RRDB_Model, hnf, hnb] using hf
  subst hf'
  obtain ⟨h1, h2, h3, h4⟩ := RRDB_Model_graph_shape s channels nf nb gc gelu w x
  exact ⟨h1, by rw [h2, Nat.mul_comm], by rw [h3, Nat.mul_comm], h4⟩

/-- Witness for C1: `RRDB_Model(size=32, channels=3,
cfg_net={nf:64, nb:2}, gc=32)` maps a `[1, 32, 32, 3]` input to a
`[1, 128, 128, 3]` output. -/
theorem claim_C1_witness :
    (RRDB_Model_graph (some 32) 3 64 2 32 id gwZero tGen).batch = 1 ∧
    (RRDB_Model_graph (some 32) 3 64 2 32 id gwZero tGen).height = 128 ∧
    (RRDB_Model_graph (some 32) 3 64 2 32 id gwZero tGen).width = 128 ∧
    (RRDB_Model_graph (some 32) 3 64 2 32 id gwZero tGen).channels = 3 :=
  claim_C1 32 3 [("nf", 64), ("nb", 2)] 32 id gwZero 64 2
    (RRDB_Model_graph (some 32) 3 64 2 32 id gwZero) tGen rfl rfl rfl rfl rfl rfl

/-- C2: on an input with `nf` channels, `ResDenseBlock_5C.call` computes
`x1 = conv1(x)` and `x_{k+1} = conv_{k+1}(concat(x, x1, ..., xk))` along
the channel axis, and returns `x + res_beta * x5`; the five convolutions
are 3×3, same-padding, GELU-activated, with output channels
`gc, gc, gc, gc, nf` (the intermediates are the definitions
`ResDenseBlock_5C.x1` … `ResDenseBlock_5C.x5`). -/
theorem claim_C2 (nf gc : Nat) (res_beta : ℚ) (gelu : ℚ → ℚ) (w : RDBWeights)
    (x : Tensor) (hx : x.channels = nf) :
    conv3x3SameAct (ResDenseBlock_5C.build nf gc res_beta gelu w).conv1 gelu gc ∧
    conv3x3SameAct (ResDenseBlock_5C.build nf gc res_beta gelu w).conv2 gelu gc ∧
    conv3x3SameAct (ResDenseBlock_5C.build nf gc res_beta gelu w).conv3 gelu gc ∧
    conv3x3SameAct (ResDenseBlock_5C.build nf gc res_beta gelu w).conv4 gelu gc ∧
    conv3x3SameAct (ResDenseBlock_5C.build nf gc res_beta gelu w).conv5 gelu nf ∧
    (ResDenseBlock_5C.build nf gc res_beta gelu w).call x =
      x.add (((ResDenseBlock_5C.build nf gc res_beta gelu w).x5 x).scale res_beta) := by
  refine ⟨⟨rfl, rfl, rfl, rfl, rfl⟩, ⟨rfl, rfl, rfl, rfl, rfl⟩,
    ⟨rfl, rfl, rfl, rfl, rfl⟩, ⟨rfl, rfl, rfl, rfl, rfl⟩,
    ⟨rfl, rfl, rfl, rfl, rfl⟩, ?_⟩
  rw [ResDenseBlock_5C.rdb_call_def, ResDenseBlock_5C.rdb_build_res_beta, Tensor.ext_iff']
  refine ⟨?_, ?_, ?_, ?_, ?_⟩
  · simp [ResDenseBlock_5C.x5]
  · simp [ResDenseBlock_5C.x5]
  · simp [ResDenseBlock_5C.x5]
  · simp [ResDenseBlock_5C.x5, hx]
  · funext b i j ch
    simp only [Tensor.add_data, Tensor.scale_data]
    exact add_comm _ _

/-- Witness for C2 at `nf = 3`, `gc = 2`, `res_beta = 1/5`, zero weights,
on a concrete `[1, 2, 2, 3]` input. -/
theorem claim_C2_witness :
    conv3x3SameAct (ResDenseBlock_5C.build 3 2 (1 / 5) id rdbwZero).conv1 id 2 ∧
    conv3x3SameAct (ResDenseBlock_5C.build 3 2 (1 / 5) id rdbwZero).conv2 id 2 ∧
    conv3x3SameAct (ResDenseBlock_5C.build 3 2 (1 / 5) id rdbwZero).conv3 id 2 ∧
    conv3x3SameAct (ResDenseBlock_5C.build 3 2 (1 / 5) id rdbwZero).conv4 id 2 ∧
    conv3x3SameAct (ResDenseBlock_5C.build 3 2 (1 / 5) id rdbwZero).conv5 id 3 ∧
    (ResDenseBlock_5C.build 3 2 (1 / 5) id rdbwZero).call tSmall =
      tSmall.add (((ResDenseBlock_5C.build 3 2 (1 / 5) id rdbwZero).x5 tSmall).scale (1 / 5)) :=
  claim_C2 3 2 (1 / 5) id rdbwZero tSmall rfl

/-- C3: the custom `BatchNormalization.call` passes the logical AND of
the caller's flag (with `None` read as `False`) and the layer's
`trainable` flag to the underlying transform; hence on a layer with
`trainable = False` the outputs for `training=True` and `training=False`
are identical. -/
theorem claim_C3 (bn : BatchNormalization) (x : Tensor) (training : Option Bool) :
    bn.call x training = bn.base.call x (training.getD false && bn.trainable) ∧
    (bn.trainable = false → bn.call x (some true) = bn.call x (some false)) := by
  refine ⟨rfl, fun h => ?_⟩
  simp [BatchNormalization.call, h]

/-- Witness for C3: a frozen (`trainable = false`) layer with the
identity base transform gives the same output under both flags. -/
theorem claim_C3_witness :
    BatchNormalization.call ⟨bnbId, false⟩ tSmall (some true) =
      BatchNormalization.call ⟨bnbId, false⟩ tSmall (some false) :=
  (claim_C3 ⟨bnbId, false⟩ tSmall (some true)).2 rfl

/-- C4: on an input with `nf` channels, `ResInResDenseBlock.call` applies
its three dense blocks in sequence and returns
`x + res_beta * rdb_3(rdb_2(rdb_1(x)))`. -/
theorem claim_C4 (nf gc : Nat) (res_beta : ℚ) (gelu : ℚ → ℚ) (w : RRDBWeights)
    (x : Tensor) (hx : x.channels = nf) :
    (ResInResDenseBlock.build nf gc res_beta gelu w).call x =
      x.add
        (((ResInResDenseBlock.build nf gc res_beta gelu w).rdb_3.call
          ((ResInResDenseBlock.build nf gc res_beta gelu w).rdb_2.call
            ((ResInResDenseBlock.build nf gc res_beta gelu w).rdb_1.call x))).scale
          res_beta) := by
  rw [ResInResDenseBlock.rrdb_call_def, ResInResDenseBlock.rrdb_build_res_beta, Tensor.ext_iff']
  refine ⟨?_, ?_, ?_, ?_, ?_⟩
  · simp [ResInResDenseBlock.body]
  · simp [ResInResDenseBlock.body]
  · simp [ResInResDenseBlock.body]
  · simp [ResInResDenseBlock.body, hx]
  · funext b i j ch
    simp only [ResInResDenseBlock.body, Tensor.add_data, Tensor.scale_data]
    exact add_comm _ _

/-- Witness for C4 at `nf = 3`, `gc = 2`, `res_beta = 1/5`, zero weights,
on a concrete `[1, 2, 2, 3]` input. -/
theorem claim_C4_witness :
    (ResInResDenseBlock.build 3 2 (1 / 5) id rrdbwZero).call tSmall =
      tSmall.add
        (((ResInResDenseBlock.build 3 2 (1 / 5) id rrdbwZero).rdb_3.call
          ((ResInResDenseBlock.build 3 2 (1 / 5) id rrdbwZero).rdb_2.call
            ((ResInResDenseBlock.build 3 2 (1 / 5) id rrdbwZero).rdb_1.call tSmall))).scale
          (1 / 5)) :=
  claim_C4 3 2 (1 / 5) id rrdbwZero tSmall rfl

/-- C5: for every `size` divisible by 32 (5 stride-2 stages), the model
built by `DiscriminatorVGG128` maps an input of shape
`[batch, size, size, channels]` to an output of shape `[batch, 1]`. -/
theorem claim_C5 (s channels nf : Nat) (gelu : ℚ → ℚ) (w : DiscWeights)
    (x : Tensor) (training : Option Bool) (hs : 32 ∣ s)
    (hh : x.height = s) (hw : x.width = s) (hc : x.channels = channels) :
    (DiscriminatorVGG128 s channels nf gelu w x training).batch = x.batch ∧
    (DiscriminatorVGG128 s channels nf gelu w x training).features = 1 :=
  DiscriminatorVGG128_shape s channels nf gelu w x training

/-- Witness for C5: `DiscriminatorVGG128(size=128, channels=3, nf=64)`
maps a `[1, 128, 128, 3]` input to a `[1, 1]` output. -/
theorem claim_C5_witness :
    (DiscriminatorVGG128 128 3 64 id dwZero tDisc none).batch = 1 ∧
    (DiscriminatorVGG128 128 3 64 id dwZero tDisc none).features = 1 :=
  claim_C5 128 3 64 id dwZero tDisc none (by decide) rfl rfl rfl

/-- C6: `ResDenseBlock_5C` and `ResInResDenseBlock` are shape-preserving:
on an input with `nf` channels the output of `call` has exactly the
input's `(batch, height, width, channels)`. -/
theorem claim_C6 (nf gc : Nat) (res_beta : ℚ) (gelu : ℚ → ℚ)
    (wr : RDBWeights) (wrr : RRDBWeights) (x : Tensor) (hx : x.channels = nf) :
    (((ResDenseBlock_5C.build nf gc res_beta gelu wr).call x).batch = x.batch ∧
      ((ResDenseBlock_5C.build nf gc res_beta gelu wr).call x).height = x.height ∧
      ((ResDenseBlock_5C.build nf gc res_beta gelu wr).call x).width = x.width ∧
      ((ResDenseBlock_5C.build nf gc res_beta gelu wr).call x).channels = x.channels) ∧
    (((ResInResDenseBlock.build nf gc res_beta gelu wrr).call x).batch = x.batch ∧
      ((ResInResDenseBlock.build nf gc res_beta gelu wrr).call x).height = x.height ∧
      ((ResInResDenseBlock.build nf gc res_beta gelu wrr).call x).width = x.width ∧
      ((ResInResDenseBlock.build nf gc res_beta gelu wrr).call x).channels = x.channels) := by
  obtain ⟨a1, a2, a3, a4⟩ := ResDenseBlock_5C.rdb_build_call_shape nf gc res_beta gelu wr x
  obtain ⟨b1, b2, b3, b4⟩ := ResInResDenseBlock.rrdb_build_call_shape nf gc res_beta gelu wrr x
  exact ⟨⟨a1, a2, a3, a4.trans hx.symm⟩, ⟨b1, b2, b3, b4.trans hx.symm⟩⟩

/-- Witness for C6 at `nf = 3`, `gc = 2`, `res_beta = 1/5`, zero weights,
on a concrete `[1, 2, 2, 3]` input. -/
theorem claim_C6_witness :
    (((ResDenseBlock_5C.build 3 2 (1 / 5) id rdbwZero).call tSmall).batch = tSmall.batch ∧
      ((ResDenseBlock_5C.build 3 2 (1 / 5) id rdbwZero).call tSmall).height = tSmall.height ∧
      ((ResDenseBlock_5C.build 3 2 (1 / 5) id rdbwZero).call tSmall).width = tSmall.width ∧
      ((ResDenseBlock_5C.build 3 2 (1 / 5) id rdbwZero).call tSmall).channels = tSmall.channels) ∧
    (((ResInResDenseBlock.build 3 2 (1 / 5) id rrdbwZero).call tSmall).batch = tSmall.batch ∧
      ((ResInResDenseBlock.build 3 2 (1 / 5) id rrdbwZero).call tSmall).height = tSmall.height ∧
      ((ResInResDenseBlock.build 3 2 (1 / 5) id rrdbwZero).call tSmall).width = tSmall.width ∧
      ((ResInResDenseBlock.build 3 2 (1 / 5) id rrdbwZero).call tSmall).channels = tSmall.channels) :=
  claim_C6 3 2 (1 / 5) id rdbwZero rrdbwZero tSmall rfl

/-- C7: if `cfg_net` lacks the key `nf` or the key `nb`, `RRDB_Model`
fails at construction time with a lookup error (before any layer is
built); when both keys are present, construction succeeds with the model
graph. -/
theorem claim_C7 (size : Option Nat) (channels : Nat)
    (cfg_net : List (String × Nat)) (gc : Nat) (gelu : ℚ → ℚ)
    (w : GenWeights) :
    ((cfg_net.lookup "nf" = none ∨ cfg_net.lookup "nb" = none) →
      ∃ e, RRDB_Model size channels cfg_net gc gelu w = Except.error e) ∧
    (∀ nf nb, cfg_net.lookup "nf" = some nf → cfg_net.lookup "nb" = some nb →
      RRDB_Model size channels cfg_net gc gelu w =
        Except.ok (RRDB_Model_graph size channels nf nb gc gelu w)) := by
  constructor
  · rintro (h | h)
    · exact ⟨"KeyError: nf", by simp [RRDB_Model, h]⟩
    · cases hnf : cfg_net.lookup "nf" with
      | none => exact ⟨"KeyError: nf", by simp [RRDB_Model, hnf]⟩
      | some nf => exact ⟨"KeyError: nb", by simp [RRDB_Model, hnf, h]⟩
  · intro nf nb h1 h2
    simp [RRDB_Model, h1, h2]

/-- Witness for C7: the empty configuration fails with a lookup error;
`{nf: 64, nb: 2}` builds the graph. -/
theorem claim_C7_witness :
    (∃ e, RRDB_Model (some 4) 3 [] 32 id gwZero = Except.error e) ∧
    RRDB_Model (some 4) 3 [("nf", 64), ("nb", 2)] 32 id gwZero =
      Except.ok (RRDB_Model_graph (some 4) 3 64 2 32 id gwZero) :=
  ⟨(claim_C7 (some 4) 3 [] 32 id gwZero).1 (Or.inl rfl),
    (claim_C7 (some 4) 3 [("nf", 64), ("nb", 2)] 32 id gwZero).2 64 2 rfl rfl⟩

/-- C8: stage 0 of the discriminator is 3×3 conv (`nf`, bias) → 4×4
stride-2 conv (`nf`, no bias) → batch norm with no activation in the
stage; stages 1–4 insert a GELU between their 3×3 no-bias conv and their
stride-2 conv, with widths `nf*2, nf*4, nf*8, nf*8`. -/
theorem claim_C8 (size channels nf : Nat) (gelu : ℚ → ℚ) (w : DiscWeights)
    (x : Tensor) (training : Option Bool) :
    convNoAct (disc_conv0_0 nf w.conv0_0) 3 1 true nf ∧
    convNoAct (disc_conv0_1 nf w.conv0_1) 4 2 false nf ∧
    convNoAct (disc_conv1_0 nf w.conv1_0) 3 1 false (nf * 2) ∧
    convNoAct (disc_conv1_1 nf w.conv1_1) 4 2 false (nf * 2) ∧
    convNoAct (disc_conv2_0 nf w.conv2_0) 3 1 false (nf * 4) ∧
    convNoAct (disc_conv2_1 nf w.conv2_1) 4 2 false (nf * 4) ∧
    convNoAct (disc_conv3_0 nf w.conv3_0) 3 1 false (nf * 8) ∧
    convNoAct (disc_conv3_1 nf w.conv3_1) 4 2 false (nf * 8) ∧
    convNoAct (disc_conv4_0 nf w.conv4_0) 3 1 false (nf * 8) ∧
    convNoAct (disc_conv4_1 nf w.conv4_1) 4 2 false (nf * 8) ∧
    DiscriminatorVGG128 size channels nf gelu w x training =
      (disc_linear1 w.linear1).apply (globalAveragePooling2D
        (discStage (disc_conv4_0 nf w.conv4_0) (disc_conv4_1 nf w.conv4_1)
          w.bn4_1 gelu training
          (discStage (disc_conv3_0 nf w.conv3_0) (disc_conv3_1 nf w.conv3_1)
            w.bn3_1 gelu training
            (discStage (disc_conv2_0 nf w.conv2_0) (disc_conv2_1 nf w.conv2_1)
              w.bn2_1 gelu training
              (discStage (disc_conv1_0 nf w.conv1_0) (disc_conv1_1 nf w.conv1_1)
                w.bn1_1 gelu training
                (discStage0 nf w training x)))))) := by
  refine ⟨⟨rfl, rfl, rfl, rfl, rfl, rfl⟩, ⟨rfl, rfl, rfl, rfl, rfl, rfl⟩,
    ⟨rfl, rfl, rfl, rfl, rfl, rfl⟩, ⟨rfl, rfl, rfl, rfl, rfl, rfl⟩,
    ⟨rfl, rfl, rfl, rfl, rfl, rfl⟩, ⟨rfl, rfl, rfl, rfl, rfl, rfl⟩,
    ⟨rfl, rfl, rfl, rfl, rfl, rfl⟩, ⟨rfl, rfl, rfl, rfl, rfl, rfl⟩,
    ⟨rfl, rfl, rfl, rfl, rfl, rfl⟩, ⟨rfl, rfl, rfl, rfl, rfl, rfl⟩, rfl⟩

/-- C9: the regularizer returned by `_regularizer` with coefficient 0
contributes a zero penalty on every weight list. -/
theorem claim_C9 (ws : List ℚ) : _regularizer 0 ws = 0 := by
  simp [_regularizer, l2]

/-- C10: with `res_beta = 0`, both `ResDenseBlock_5C.call` and
`ResInResDenseBlock.call` are the identity on every input with `nf`
channels, regardless of the convolution weights. -/
theorem claim_C10 (nf gc : Nat) (gelu : ℚ → ℚ) (wr : RDBWeights)
    (wrr : RRDBWeights) (x : Tensor) (hx : x.channels = nf) :
    (ResDenseBlock_5C.build nf gc 0 gelu wr).call x = x ∧
    (ResInResDenseBlock.build nf gc 0 gelu wrr).call x = x := by
  constructor
  · rw [ResDenseBlock_5C.rdb_call_def, ResDenseBlock_5C.rdb_build_res_beta]
    refine Tensor.scale_zero_add _ _ ?_ ?_ ?_ ?_
    · rw [ResDenseBlock_5C.x5, Conv2DLayer.apply_batch, Tensor.concat3_batch]
    · rw [ResDenseBlock_5C.x5, Conv2DLayer.apply_height, ResDenseBlock_5C.build_conv5,
        RDBConv_padding, RDBConv_kernelSize, RDBConv_strides, convOutDim_same_one,
        Tensor.concat3_height]
    · rw [ResDenseBlock_5C.x5, Conv2DLayer.apply_width, ResDenseBlock_5C.build_conv5,
        RDBConv_padding, RDBConv_kernelSize, RDBConv_strides, convOutDim_same_one,
        Tensor.concat3_width]
    · rw [ResDenseBlock_5C.x5, Conv2DLayer.apply_channels, ResDenseBlock_5C.build_conv5,
        RDBConv_filters, hx]
  · rw [ResInResDenseBlock.rrdb_call_def, ResInResDenseBlock.rrdb_build_res_beta]
    obtain ⟨a1, a2, a3, a4⟩ := ResDenseBlock_5C.rdb_build_call_shape nf gc 0 gelu wrr.r1 x
    obtain ⟨b1, b2, b3, b4⟩ := ResDenseBlock_5C.rdb_build_call_shape nf gc 0 gelu wrr.r2
      ((ResDenseBlock_5C.build nf gc 0 gelu wrr.r1).call x)
    obtain ⟨c1, c2, c3, c4⟩ := ResDenseBlock_5C.rdb_build_call_shape nf gc 0 gelu wrr.r3
      ((ResDenseBlock_5C.build nf gc 0 gelu wrr.r2).call
        ((ResDenseBlock_5C.build nf gc 0 gelu wrr.r1).call x))
    refine Tensor.scale_zero_add _ _ ?_ ?_ ?_ ?_
    · rw [ResInResDenseBlock.body, ResInResDenseBlock.build_rdb_1,
        ResInResDenseBlock.build_rdb_2, ResInResDenseBlock.build_rdb_3]
      exact c1.trans (b1.trans a1)
    · rw [ResInResDenseBlock.body, ResInResDenseBlock.build_rdb_1,
        ResInResDenseBlock.build_rdb_2, ResInResDenseBlock.build_rdb_3]
      exact c2.trans (b2.trans a2)
    · rw [ResInResDenseBlock.body, ResInResDenseBlock.build_rdb_1,
        ResInResDenseBlock.build_rdb_2, ResInResDenseBlock.build_rdb_3]
      exact c3.trans (b3.trans a3)
    · rw [ResInResDenseBlock.body, ResInResDenseBlock.build_rdb_1,
        ResInResDenseBlock.build_rdb_2, ResInResDenseBlock.build_rdb_3]
      exact c4.trans hx.symm

/-- Witness for C10 at `nf = 3`, `gc = 2`, zero weights, on a concrete
`[1, 2, 2, 3]` input. -/
theorem claim_C10_witness :
    (ResDenseBlock_5C.build 3 2 0 id rdbwZero).call tSmall = tSmall ∧
    (ResInResDenseBlock.build 3 2 0 id rrdbwZero).call tSmall = tSmall :=
  claim_C10 3 2 id rdbwZero rrdbwZero tSmall rfl
